import Mathlib

/-!
Verification of `django_comments_xtd/views.py`: the comment-confirmation and
follow-up-notification logic of the django-comments-xtd plugin.

The module is embedded shallowly:
* persisted `XtdComment` rows become a list held in a `DB` state, with a
  fresh-id counter standing for the primary-key sequence of the ORM;
* the temporary (not yet persisted) comment carried by the posting signal
  becomes the structure `TmpComment`;
* outward effects (emails handed to the mailer, signal dispatches) are
  collected in an `Effects` record instead of being performed;
* the signed-token codec is an external collaborator: a confirmation key is
  represented by its decoding outcome, `Option TmpComment` (`none` models
  `signed.loads` raising `ValueError` or `BadSignature`);
* the responses of `confirmation_received` signal receivers are passed in as
  a list of `Option Bool` (`none` models a receiver returning `None`).

Template rendering, URL reversing and the target-object lookup are pure
framework plumbing with no bearing on the verified properties; the
confirmation email record keeps the recipient and the signed payload, which
is all the claims inspect.
-/

namespace CommentsXtd

/-- A persisted comment row (`XtdComment` model), restricted to the fields
this module reads or writes. -/
structure XtdComment where
  id : Nat
  user_name : String
  user_email : String
  submit_date : Nat
  object_pk : Nat
  is_public : Bool
  followup : Bool
  deriving Repr, DecidableEq

/-- The authentication state of `comment.user`: `none` when the field is
unset (falsy), `some b` when a user object is present with
`is_authenticated()` returning `b`. -/
abbrev UserField := Option Bool

/-- A temporary comment (`TmpXtdComment`) as carried by the
`comment_was_posted` signal and by the signed confirmation key. -/
structure TmpComment where
  user : UserField
  user_name : String
  user_email : String
  submit_date : Nat
  object_pk : Nat
  is_public : Bool
  followup : Bool
  deriving Repr, DecidableEq

/-- The database state: the persisted `XtdComment` rows in insertion order,
plus the next primary key the ORM will assign on `save()`. -/
structure DB where
  rows : List XtdComment
  next_id : Nat
  deriving Repr, DecidableEq

/-- A confirmation-request email: recipient address and the payload of the
signed key embedded in the confirmation URL. -/
structure ConfEmail where
  recipient : String
  key : TmpComment
  deriving Repr, DecidableEq

/-- The outward effects of a handler run: confirmation-request emails,
follow-up notification emails (by recipient address), and the number of
`confirmation_received` signal dispatches. -/
structure Effects where
  confirmation_emails : List ConfEmail
  followup_emails : List String
  signals_sent : Nat
  deriving Repr, DecidableEq

/-- No outward effect. -/
def noEffects : Effects := ⟨[], [], 0⟩

/-- Embeds `_comment_exists`: true iff a persisted `XtdComment` has the same
`user_name`, `user_email` and `submit_date` as the given comment
(`XtdComment.objects.filter(...).count() > 0`). -/
def comment_exists (c : TmpComment) (db : DB) : Bool :=
  db.rows.any (fun r =>
    r.user_name == c.user_name && r.user_email == c.user_email &&
    r.submit_date == c.submit_date)

/-- Embeds `_create_comment`: builds an `XtdComment` from the temporary comment
(`XtdComment(**tmp_comment)`), overrides `is_public` to `True`, and saves it
(append to the table, consuming the next primary key). Returns the saved
comment and the new database state. -/
def create_comment (t : TmpComment) (db : DB) : XtdComment × DB :=
  let comment : XtdComment :=
    { id := db.next_id
      user_name := t.user_name
      user_email := t.user_email
      submit_date := t.submit_date
      object_pk := t.object_pk
      is_public := true
      followup := t.followup }
  (comment, ⟨db.rows ++ [comment], db.next_id + 1⟩)

/-- The queryset of `notify_comment_followers`: persisted comments with the
same `object_pk`, `is_public=True`, `followup=True`, excluding the comment
itself (`exclude(id__exact=comment.id)`). -/
def previous_comments (c : XtdComment) (db : DB) : List XtdComment :=
  db.rows.filter (fun r =>
    r.object_pk == c.object_pk && r.is_public && r.followup && r.id != c.id)

/-- One step of building the `followers` dict: `followers[email] = name`
overwrites the entry for an existing key and appends a fresh key. -/
def dict_insert (acc : List (String × String)) (email name : String) :
    List (String × String) :=
  if acc.any (fun p => p.1 == email) then
    acc.map (fun p => if p.1 == email then (email, name) else p)
  else
    acc ++ [(email, name)]

/-- The `followers` dict of `notify_comment_followers` as an association
list keyed by `user_email`. -/
def followers_of (c : XtdComment) (db : DB) : List (String × String) :=
  (previous_comments c db).foldl
    (fun acc r => dict_insert acc r.user_email r.user_name) []

/-- Embeds `notify_comment_followers`: sends one follow-up email per entry of the
`followers` dict; the value returned is the list of recipient addresses. -/
def notify_comment_followers (c : XtdComment) (db : DB) : List String :=
  (followers_of c db).map Prod.fst

/-- The publish condition of `on_comment_was_posted`:
`(comment.user and comment.user.is_authenticated()) or not
COMMENTS_XTD_CONFIRM_EMAIL`. -/
def publish_cond (confirm_email_setting : Bool) (c : TmpComment) : Bool :=
  (match c.user with
   | some b => b
   | none => false) || !confirm_email_setting

/-- The outcome of `on_comment_was_posted`: the new database state, the
effects performed, and the `XtdComment` attached to the posted comment as
`comment.xtd_comment` when one was created. -/
structure PostOut where
  db : DB
  effects : Effects
  created : Option XtdComment
  deriving Repr, DecidableEq

/-- Embeds `on_comment_was_posted`: if the user is authenticated or confirmation
is disabled, publish the comment (unless a duplicate exists) and notify the
followers; otherwise sign the comment and send a confirmation-request email
to `comment.user_email`. -/
def on_comment_was_posted (confirm_email_setting : Bool) (c : TmpComment)
    (db : DB) : PostOut :=
  if publish_cond confirm_email_setting c then
    if !comment_exists c db then
      let (new_comment, db2) := create_comment c db
      let fes := notify_comment_followers new_comment db2
      ⟨db2, ⟨[], fes, 0⟩, some new_comment⟩
    else
      ⟨db, noEffects, none⟩
  else
    ⟨db, ⟨[⟨c.user_email, c⟩], [], 0⟩, none⟩

/-- The response of the `confirm` view. -/
inductive ConfirmResult where
  | http404
  | discarded (c : TmpComment)
  | redirected (c : XtdComment)
  deriving Repr, DecidableEq

/-- The outcome of the `confirm` view: response, new database state,
effects performed. -/
structure ConfirmOut where
  result : ConfirmResult
  db : DB
  effects : Effects
  deriving Repr, DecidableEq

/-- The `confirm` view. `key` is the decoding outcome of
`signed.loads(key, extra_key=COMMENTS_XTD_SALT)`: `none` when it raises
`ValueError` or `BadSignature`. `responses` are the values returned by the
receivers of the `confirmation_received` signal, in dispatch order. -/
def confirm (key : Option TmpComment) (responses : List (Option Bool))
    (db : DB) : ConfirmOut :=
  match key with
  | none => ⟨.http404, db, noEffects⟩
  | some tmp =>
    if comment_exists tmp db then
      ⟨.http404, db, noEffects⟩
    else if responses.any (fun r => r == some false) then
      ⟨.discarded tmp, db, ⟨[], [], 1⟩⟩
    else
      let (comment, db2) := create_comment tmp db
      let fes := notify_comment_followers comment db2
      ⟨.redirected comment, db2, ⟨[], fes, 1⟩⟩

/-! ### Sample data used by the witness theorems -/

/-- A persisted, public comment with follow-up requested. -/
def row1 : XtdComment := ⟨1, "alice", "alice@x.org", 10, 5, true, true⟩

/-- A persisted, public comment without follow-up. -/
def row2 : XtdComment := ⟨2, "bob", "bob@x.org", 11, 5, true, false⟩

/-- A sample database holding `row1` and `row2`. -/
def db1 : DB := ⟨[row1, row2], 3⟩

/-- A temporary comment duplicating the dedup key of `row1`, posted by an
authenticated user. -/
def tmp1 : TmpComment := ⟨some true, "alice", "alice@x.org", 10, 5, false, true⟩

/-- A fresh temporary comment posted without a logged-in user. -/
def tmp2 : TmpComment := ⟨none, "carol", "carol@x.org", 12, 5, false, true⟩

/-! ### Helper lemmas on the followers dict -/

/-- Overwriting the value at a key leaves the key list unchanged. -/
lemma keys_overwrite (acc : List (String × String)) (e n : String) :
    (acc.map (fun p => if p.1 == e then (e, n) else p)).map Prod.fst =
      acc.map Prod.fst := by
  induction acc with
  | nil => rfl
  | cons p ps ih =>
    simp only [List.map_cons, List.cons.injEq]
    constructor
    · split
      · next hp => simp only [beq_iff_eq] at hp; exact hp.symm
      · rfl
    · exact ih

/-- Lemma: `dict_insert` does not change the keys when the key is present, and
appends it when absent. -/
lemma keys_dict_insert (acc : List (String × String)) (e n : String) :
    (dict_insert acc e n).map Prod.fst =
      if acc.any (fun p => p.1 == e) then acc.map Prod.fst
      else acc.map Prod.fst ++ [e] := by
  unfold dict_insert
  split
  · exact keys_overwrite acc e n
  · simp

/-- Membership in the keys after one `dict_insert`. -/
lemma mem_keys_dict_insert (acc : List (String × String)) (e em n : String) :
    e ∈ (dict_insert acc em n).map Prod.fst ↔
      e ∈ acc.map Prod.fst ∨ e = em := by
  rw [keys_dict_insert]
  split
  · next h =>
    simp only [List.any_eq_true, beq_iff_eq] at h
    obtain ⟨p, hp, hpe⟩ := h
    constructor
    · exact Or.inl
    · rintro (he | rfl)
      · exact he
      · exact List.mem_map.mpr ⟨p, hp, hpe⟩
  · simp

/-- Membership in the keys of the folded followers dict: an email is a key
iff it was already one or some row in the list carries it. -/
lemma mem_keys_followers_fold (rows : List XtdComment)
    (acc : List (String × String)) (e : String) :
    e ∈ ((rows.foldl (fun a r => dict_insert a r.user_email r.user_name)
        acc).map Prod.fst) ↔
      e ∈ acc.map Prod.fst ∨ ∃ r ∈ rows, r.user_email = e := by
  induction rows generalizing acc with
  | nil => simp
  | cons r rs ih =>
    simp only [List.foldl_cons, ih, mem_keys_dict_insert, List.mem_cons]
    constructor
    · rintro ((he | rfl) | ⟨r2, hr2, he2⟩)
      · exact Or.inl he
      · exact Or.inr ⟨r, Or.inl rfl, rfl⟩
      · exact Or.inr ⟨r2, Or.inr hr2, he2⟩
    · rintro (he | ⟨r2, (rfl | hr2), he2⟩)
      · exact Or.inl (Or.inl he)
      · exact Or.inl (Or.inr he2.symm)
      · exact Or.inr ⟨r2, hr2, he2⟩

/-- Folding rows into the followers dict keeps the keys duplicate-free. -/
lemma nodup_keys_followers_fold (rows : List XtdComment)
    (acc : List (String × String)) (h : (acc.map Prod.fst).Nodup) :
    ((rows.foldl (fun a r => dict_insert a r.user_email r.user_name)
        acc).map Prod.fst).Nodup := by
  induction rows generalizing acc with
  | nil => exact h
  | cons r rs ih =>
    refine ih _ ?_
    rw [keys_dict_insert]
    split
    · exact h
    · next hc =>
      rw [List.nodup_append]
      refine ⟨h, List.nodup_singleton _, ?_⟩
      intro a ha hb
      have hb2 : a = r.user_email := by simpa using hb
      subst hb2
      obtain ⟨p, hp, hpe⟩ := List.mem_map.mp ha
      have hc2 : ∀ x : String, (r.user_email, x) ∉ acc := by
        simpa [List.any_eq_true] using hc
      exact hc2 p.2 (by rw [← hpe]; simpa using hp)

/-- A temporary comment sharing the dedup key of `tmp1` (same `user_name`,
`user_email`, `submit_date`) but differing in every other field. -/
def tmp1b : TmpComment := ⟨none, "alice", "alice@x.org", 10, 99, true, false⟩

/-! ### Claim theorems -/

/-- C1: `on_comment_was_posted` takes the publish path (creating an
`XtdComment`) iff the comment's user is set and authenticated or
`COMMENTS_XTD_CONFIRM_EMAIL` is `False`; otherwise it takes the hold path,
sending a confirmation email and creating no comment. -/
theorem C1_branch_selection (s : Bool) (c : TmpComment) (db : DB) :
    (publish_cond s c = true ↔ (c.user = some true ∨ s = false)) ∧
    ((on_comment_was_posted s c db).effects.confirmation_emails = [] ↔
      publish_cond s c = true) ∧
    (publish_cond s c = true → comment_exists c db = false →
      (on_comment_was_posted s c db).created = some (create_comment c db).1) ∧
    (publish_cond s c = false →
      on_comment_was_posted s c db =
        ⟨db, ⟨[⟨c.user_email, c⟩], [], 0⟩, none⟩) := by
  refine ⟨?_, ?_, ?_, ?_⟩
  · cases hu : c.user with
    | none => simp [publish_cond, hu]
    | some b => cases b <;> simp [publish_cond, hu]
  · by_cases hp : publish_cond s c = true
    · simp only [hp, iff_true]
      simp only [on_comment_was_posted, hp, if_true]
      split <;> rfl
    · have hp2 : publish_cond s c = false := by
        revert hp; cases publish_cond s c <;> simp
      simp [on_comment_was_posted, hp2]
  · intro hp he
    simp [on_comment_was_posted, hp, he]
  · intro hp
    simp [on_comment_was_posted, hp]

/-- C1 witness: a concrete run of each branch. -/
theorem C1_branch_selection_witness :
    on_comment_was_posted true tmp2 db1 =
      ⟨db1, ⟨[⟨tmp2.user_email, tmp2⟩], [], 0⟩, none⟩ ∧
    (on_comment_was_posted false tmp2 db1).created =
      some (create_comment tmp2 db1).1 :=
  ⟨(C1_branch_selection true tmp2 db1).2.2.2 (by decide),
   (C1_branch_selection false tmp2 db1).2.2.1 (by decide) (by decide)⟩

/-- C2: when the key decodes to a comment that does not yet exist and no
receiver discards it, `confirm` materializes the comment (appending it to
the table) and notifies the followers of the new comment. -/
theorem C2_confirm_creates_and_notifies (tmp : TmpComment)
    (responses : List (Option Bool)) (db : DB)
    (hnex : comment_exists tmp db = false)
    (hnodisc : responses.any (fun r => r == some false) = false) :
    confirm (some tmp) responses db =
      ⟨.redirected (create_comment tmp db).1, (create_comment tmp db).2,
        ⟨[], notify_comment_followers (create_comment tmp db).1
          (create_comment tmp db).2, 1⟩⟩ ∧
    (create_comment tmp db).2.rows = db.rows ++ [(create_comment tmp db).1] := by
  constructor
  · simp [confirm, hnex, hnodisc]
  · rfl

/-- C2 witness: a concrete confirmation that creates the comment. -/
theorem C2_confirm_creates_and_notifies_witness :
    confirm (some tmp2) [] db1 =
      ⟨.redirected (create_comment tmp2 db1).1, (create_comment tmp2 db1).2,
        ⟨[], notify_comment_followers (create_comment tmp2 db1).1
          (create_comment tmp2 db1).2, 1⟩⟩ ∧
    (create_comment tmp2 db1).2.rows =
      db1.rows ++ [(create_comment tmp2 db1).1] :=
  C2_confirm_creates_and_notifies tmp2 [] db1 (by decide) (by decide)

/-- C3: a key that fails signed-token validation makes `confirm` raise
`Http404` with the database unchanged and no effect performed. -/
theorem C3_invalid_key_http404 (responses : List (Option Bool)) (db : DB) :
    confirm none responses db = ⟨.http404, db, noEffects⟩ := rfl

/-- C4: `_comment_exists` is true iff some persisted row matches the
comment on `user_name`, `user_email` and `submit_date`; no other field of
the probe participates. -/
theorem C4_dedup_key (c : TmpComment) (db : DB) :
    (comment_exists c db = true ↔
      ∃ r ∈ db.rows, r.user_name = c.user_name ∧ r.user_email = c.user_email ∧
        r.submit_date = c.submit_date) ∧
    (∀ c2 : TmpComment, c2.user_name = c.user_name →
      c2.user_email = c.user_email → c2.submit_date = c.submit_date →
      comment_exists c2 db = comment_exists c db) := by
  constructor
  · simp [comment_exists, List.any_eq_true, and_assoc]
  · intro c2 h1 h2 h3
    simp [comment_exists, h1, h2, h3]

/-- C4 witness: a probe differing only outside the dedup key gets the same
answer, and a matching row makes the check true. -/
theorem C4_dedup_key_witness :
    comment_exists tmp1b db1 = comment_exists tmp1 db1 ∧
    comment_exists tmp1 db1 = true :=
  ⟨(C4_dedup_key tmp1 db1).2 tmp1b (by decide) (by decide) (by decide),
   ((C4_dedup_key tmp1 db1).1).mpr
     ⟨row1, by decide, by decide, by decide, by decide⟩⟩

/-- C5: `notify_comment_followers` sends exactly one email per distinct
`user_email` among the persisted comments with the same `object_pk` that
are public, requested follow-up, and are not the comment itself. -/
theorem C5_one_email_per_follower (c : XtdComment) (db : DB) :
    (notify_comment_followers c db).Nodup ∧
    (∀ e : String, e ∈ notify_comment_followers c db ↔
      ∃ r ∈ db.rows, r.object_pk = c.object_pk ∧ r.is_public = true ∧
        r.followup = true ∧ r.id ≠ c.id ∧ r.user_email = e) := by
  constructor
  · unfold notify_comment_followers followers_of
    exact nodup_keys_followers_fold _ [] (by simp)
  · intro e
    unfold notify_comment_followers followers_of
    rw [mem_keys_followers_fold]
    simp [previous_comments, List.mem_filter, and_assoc]

/-- C5 witness: a concrete thread where only the follow-up requester is
notified. -/
theorem C5_one_email_per_follower_witness :
    (notify_comment_followers row2 db1).Nodup ∧
    ("alice@x.org" ∈ notify_comment_followers row2 db1 ↔
      ∃ r ∈ db1.rows, r.object_pk = row2.object_pk ∧ r.is_public = true ∧
        r.followup = true ∧ r.id ≠ row2.id ∧ r.user_email = "alice@x.org") :=
  ⟨(C5_one_email_per_follower row2 db1).1,
   (C5_one_email_per_follower row2 db1).2 "alice@x.org"⟩

/-- C6: on the hold path the database is unchanged, nothing is created, no
follower email goes out, and exactly one confirmation-request email is sent
to the posting user's address carrying the signed payload of the comment. -/
theorem C6_hold_path_effects (s : Bool) (c : TmpComment) (db : DB)
    (h : publish_cond s c = false) :
    on_comment_was_posted s c db =
      ⟨db, ⟨[⟨c.user_email, c⟩], [], 0⟩, none⟩ := by
  simp [on_comment_was_posted, h]

/-- C6 witness: an unauthenticated post with confirmation enabled. -/
theorem C6_hold_path_effects_witness :
    on_comment_was_posted true tmp2 db1 =
      ⟨db1, ⟨[⟨tmp2.user_email, tmp2⟩], [], 0⟩, none⟩ :=
  C6_hold_path_effects true tmp2 db1 (by decide)

/-- C7: on the publish path, when a row with the same dedup key already
exists, `on_comment_was_posted` creates nothing, notifies nobody, and
leaves the database unchanged. -/
theorem C7_duplicate_post_noop (s : Bool) (c : TmpComment) (db : DB)
    (hc : publish_cond s c = true) (hex : comment_exists c db = true) :
    on_comment_was_posted s c db = ⟨db, noEffects, none⟩ := by
  simp [on_comment_was_posted, hc, hex]

/-- C7 witness: re-posting a comment that duplicates a persisted row. -/
theorem C7_duplicate_post_noop_witness :
    on_comment_was_posted true tmp1 db1 = ⟨db1, noEffects, none⟩ :=
  C7_duplicate_post_noop true tmp1 db1 (by decide) (by decide)

/-- C8: confirming a key whose comment already exists raises `Http404`
before the signal is sent: no signal, no email, no new comment. -/
theorem C8_already_confirmed_404 (tmp : TmpComment)
    (responses : List (Option Bool)) (db : DB)
    (hex : comment_exists tmp db = true) :
    confirm (some tmp) responses db = ⟨.http404, db, noEffects⟩ := by
  simp [confirm, hex]

/-- C8 witness: confirming an already-confirmed key. -/
theorem C8_already_confirmed_404_witness :
    confirm (some tmp1) [] db1 = ⟨.http404, db1, noEffects⟩ :=
  C8_already_confirmed_404 tmp1 [] db1 (by decide)

/-- C9: every `XtdComment` this module creates has `is_public = true` at
creation time, whatever `is_public` the input temporary comment carried:
`_create_comment` forces it, and any row added to the database by either
handler is public. -/
theorem C9_created_is_public (t : TmpComment) (db : DB) (s : Bool)
    (k : Option TmpComment) (responses : List (Option Bool)) (r : XtdComment)
    (hr : r ∈ (on_comment_was_posted s t db).db.rows ∨
      r ∈ (confirm k responses db).db.rows) :
    (create_comment t db).1.is_public = true ∧
    (r ∈ db.rows ∨ r.is_public = true) := by
  refine ⟨rfl, ?_⟩
  rcases hr with hr | hr
  · by_cases hp : publish_cond s t = true
    · by_cases he : comment_exists t db = true
      · simp [on_comment_was_posted, hp, he] at hr
        exact Or.inl hr
      · simp [on_comment_was_posted, hp, he, create_comment] at hr
        rcases hr with hr | hr
        · exact Or.inl hr
        · subst hr; exact Or.inr rfl
    · simp [on_comment_was_posted, hp] at hr
      exact Or.inl hr
  · match k with
    | none => exact Or.inl hr
    | some tmp =>
      by_cases he : comment_exists tmp db = true
      · simp [confirm, he] at hr
        exact Or.inl hr
      · by_cases hd : responses.any (fun x => x == some false) = true
        · simp [confirm, he, hd] at hr
          exact Or.inl hr
        · simp [confirm, he, hd, create_comment] at hr
          rcases hr with hr | hr
          · exact Or.inl hr
          · subst hr; exact Or.inr rfl

/-- C9 witness: the row created by a concrete publish run is public. -/
theorem C9_created_is_public_witness :
    (create_comment tmp2 db1).1.is_public = true ∧
    ((create_comment tmp2 db1).1 ∈ db1.rows ∨
      (create_comment tmp2 db1).1.is_public = true) :=
  C9_created_is_public tmp2 db1 false none [] (create_comment tmp2 db1).1
    (Or.inl (by decide))

/-- C10: when a receiver of the confirmation signal responds `False`,
`confirm` renders the discarded template: no comment is created, no
follower is notified, and the database is unchanged. -/
theorem C10_discard_leaves_state (tmp : TmpComment)
    (responses : List (Option Bool)) (db : DB)
    (hnex : comment_exists tmp db = false)
    (hdisc : responses.any (fun r => r == some false) = true) :
    confirm (some tmp) responses db = ⟨.discarded tmp, db, ⟨[], [], 1⟩⟩ := by
  simp [confirm, hnex, hdisc]

/-- C10 witness: a concrete discarded confirmation. -/
theorem C10_discard_leaves_state_witness :
    confirm (some tmp2) [some false] db1 =
      ⟨.discarded tmp2, db1, ⟨[], [], 1⟩⟩ :=
  C10_discard_leaves_state tmp2 [some false] db1 (by decide) (by decide)

end CommentsXtd
